import Mathlib

/-!
Verification of the emergency-response core in `app.py`.

The Python code is shallowly embedded as follows: numeric values (Python
floats) are idealised as real numbers, location dicts become `PyLoc`
records with optional fields, the module-level `RealTimeProcessor` state
becomes the `St` record, and each Flask handler becomes a function from
`St` (plus the request data) to a result together with the updated state.
Python's `round(x, ndigits=1)` is round-half-even after scaling by 10,
idealised over the reals.
-/

open Real

namespace ERS

/-- A Python dict carrying an optional coordinate under either key spelling
(`latitude`/`longitude` or `lat`/`lng`), as passed around `app.py`.
An absent key is `none`. -/
structure PyLoc where
  latitude : Option ℝ := none
  longitude : Option ℝ := none
  lat : Option ℝ := none
  lng : Option ℝ := none

/-- Python truthiness of the location dict: an empty dict is falsy. -/
def PyLoc.isEmpty (l : PyLoc) : Bool :=
  l.latitude.isNone && l.longitude.isNone && l.lat.isNone && l.lng.isNone

/-- Extraction `location.get('latitude', location.get('lat'))` (app.py line 68). -/
def PyLoc.getLat (l : PyLoc) : Option ℝ :=
  match l.latitude with
  | some x => some x
  | none => l.lat

/-- Extraction `location.get('longitude', location.get('lng'))` (app.py line 69). -/
def PyLoc.getLng (l : PyLoc) : Option ℝ :=
  match l.longitude with
  | some x => some x
  | none => l.lng

/-- The `location` sub-dict of a catalog vehicle, with both keys present. -/
structure VehLoc where
  latitude : ℝ
  longitude : ℝ

/-- The value of a vehicle's `eta` key: either the string `"N/A"` or the
string `f"{m} mins"`. -/
inductive EtaStr where
  | na
  | mins (m : ℝ)

/-- A vehicle record as held in `processor.vehicles` after loading. -/
structure Vehicle where
  id : String
  name : String
  type : String
  location : VehLoc
  services : List String
  eta : EtaStr
  available : Bool
  status : String
  distance : Option ℝ

/-- Placeholder vehicle used as the (never consulted) default of `List.getD`
at indices that are in range by construction. -/
def defVehicle : Vehicle :=
  { id := "", name := "", type := "", location := ⟨0, 0⟩, services := [],
    eta := .na, available := true, status := "", distance := none }

/-- The `vehicle_location` dict built at lines 136-139, 162-165 and 212-215
out of a vehicle's stored coordinates. -/
def vehiclePyLoc (v : Vehicle) : PyLoc :=
  { latitude := some v.location.latitude,
    longitude := some v.location.longitude }

/-- One entry of the seeded `phone_locations` map (app.py lines 14-20). -/
structure PhoneRec where
  lat : ℝ
  lng : ℝ
  address : String

/-- The mutable state of the module-level `RealTimeProcessor`. -/
structure St where
  vehicles : List Vehicle
  vehicle_locations : String → Option PyLoc
  phone_to_location : String → Option PyLoc
  phone_locations : String → Option PhoneRec

/-- A catalog record from `data/vehicles.json` before `load_vehicles`
decorates it. -/
structure RawVehicle where
  id : String
  name : String
  type : String
  location : VehLoc
  services : List String

/-- Method `RealTimeProcessor.load_vehicles` (lines 23-36): every loaded vehicle
gets `eta = "N/A"`, `available = True`, `status = 'AVAILABLE'`. -/
def load_vehicles (catalog : List RawVehicle) : List Vehicle :=
  catalog.map fun r =>
    { id := r.id, name := r.name, type := r.type, location := r.location,
      services := r.services, eta := .na, available := true,
      status := "AVAILABLE", distance := none }

/-- The seeded phone-to-location reference map (lines 14-20). -/
def phoneLocationsInit : String → Option PhoneRec := fun p =>
  if p = "9876543210" then some ⟨13.3409, 77.1025, "Tumkur City Center"⟩
  else if p = "9876543211" then some ⟨13.3415, 77.1030, "Tumkur Bus Stand"⟩
  else if p = "9876543212" then some ⟨13.3420, 77.1035, "Tumkur Railway Station"⟩
  else if p = "9876543213" then some ⟨13.3425, 77.1040, "Tumkur Medical College"⟩
  else if p = "9876543214" then some ⟨13.3430, 77.1045, "Tumkur Police Station"⟩
  else none

/-- Constructor `RealTimeProcessor.__init__` for a given catalog; an unreadable catalog
file is the `catalog = []` case. -/
def initState (catalog : List RawVehicle) : St :=
  { vehicles := load_vehicles catalog,
    vehicle_locations := fun _ => none,
    phone_to_location := fun _ => none,
    phone_locations := phoneLocationsInit }

/-- Method `RealTimeProcessor.update_vehicle_location` (lines 38-39). -/
def update_vehicle_location (s : St) (vid : String) (loc : PyLoc) : St :=
  { s with vehicle_locations :=
      fun k => if k = vid then some loc else s.vehicle_locations k }

/-- Method `RealTimeProcessor.update_phone_location` (lines 41-42). -/
def update_phone_location (s : St) (phone : String) (loc : PyLoc) : St :=
  { s with phone_to_location :=
      fun k => if k = phone then some loc else s.phone_to_location k }

/-- Method `RealTimeProcessor.get_phone_location` (lines 47-48): consults the live
`phone_to_location` map only. -/
def get_phone_location (s : St) (phone : String) : Option PyLoc :=
  s.phone_to_location phone

/-- Method `RealTimeProcessor.get_location_from_phone` (lines 50-61): consults the
seeded `phone_locations` map only. -/
def get_location_from_phone (s : St) (phone : String) : Option (PyLoc × String) :=
  match s.phone_locations phone with
  | some r => some ({ lat := some r.lat, lng := some r.lng }, r.address)
  | none => none

/-- Round-half-even to the nearest integer, the tie-breaking used by
Python's builtin `round`, idealised over the reals. -/
noncomputable def rnd (x : ℝ) : ℤ :=
  if x - ⌊x⌋ < 1 / 2 then ⌊x⌋
  else if 1 / 2 < x - ⌊x⌋ then ⌊x⌋ + 1
  else if Even ⌊x⌋ then ⌊x⌋ else ⌊x⌋ + 1

/-- Python `round(x, 1)`. -/
noncomputable def round1 (x : ℝ) : ℝ := (rnd (10 * x) : ℝ) / 10

/-- Python `math.atan2 y x`. -/
noncomputable def atan2 (y x : ℝ) : ℝ :=
  if 0 < x then arctan (y / x)
  else if x < 0 then (if 0 ≤ y then arctan (y / x) + π else arctan (y / x) - π)
  else if 0 < y then π / 2
  else if y < 0 then -(π / 2)
  else 0

/-- The haversine great-circle distance computed inline in `calculate_eta`
(lines 76-88), on coordinates in decimal degrees, Earth radius 6371 km. -/
noncomputable def haversineDistance (vlat vlng elat elng : ℝ) : ℝ :=
  let lat1 := vlat * π / 180
  let lon1 := vlng * π / 180
  let lat2 := elat * π / 180
  let lon2 := elng * π / 180
  let dlat := lat2 - lat1
  let dlon := lon2 - lon1
  let a := Real.sin (dlat / 2) ^ 2 +
    Real.cos lat1 * Real.cos lat2 * Real.sin (dlon / 2) ^ 2
  let c := 2 * atan2 (Real.sqrt a) (Real.sqrt (1 - a))
  6371 * c

/-- Lines 98-101: store the rounded distance on the first vehicle whose
stored coordinates are exactly the supplied vehicle coordinates. -/
noncomputable def attachDistance (va vb dist : ℝ) : List Vehicle → List Vehicle
  | [] => []
  | v :: rest =>
    if v.location.latitude = va ∧ v.location.longitude = vb then
      { v with distance := some (round1 dist) } :: rest
    else
      v :: attachDistance va vb dist rest

/-- Method `RealTimeProcessor.calculate_eta` (lines 63-103): returns the ETA in
minutes together with the vehicle list after the distance-attachment side
effect.  A coordinate that is absent, or equal to `0` (falsy in Python's
`all`), short-circuits to `0`. -/
noncomputable def calculate_eta (vehicles : List Vehicle)
    (vehicle_location emergency_location : PyLoc) : ℝ × List Vehicle :=
  if vehicle_location.isEmpty || emergency_location.isEmpty then (0, vehicles)
  else
    match vehicle_location.getLat, vehicle_location.getLng,
          emergency_location.getLat, emergency_location.getLng with
    | some va, some vb, some ea, some eb =>
      if va = 0 ∨ vb = 0 ∨ ea = 0 ∨ eb = 0 then (0, vehicles)
      else
        let distance := haversineDistance va vb ea eb
        let eta0 := round1 (distance / 60 * 60)
        let eta := if eta0 < 1 ∧ 0 < distance then 1 else eta0
        (eta, attachDistance va vb distance vehicles)
    | _, _, _, _ => (0, vehicles)

/-- The ETA value returned by `calculate_eta`; the returned number does not
depend on the vehicle list, only the attachment side effect does. -/
noncomputable def etaValue (vl el : PyLoc) : ℝ := (calculate_eta [] vl el).1

/-- The eta string written at lines 141 and 167:
`f"{eta} mins" if eta > 0 else "N/A"`. -/
noncomputable def fmtEtaPos (eta : ℝ) : EtaStr :=
  if 0 < eta then .mins eta else .na

/-- Python `str.upper()` on ASCII strings, modelled as a per-character
uppercase map. -/
def strUpper (s : String) : String := String.mk (s.data.map Char.toUpper)

/-- Handler `GET /api/vehicles` (lines 115-128); an absent `type` query parameter
is the empty string. -/
def get_vehicles (s : St) (typeArg : String) : List Vehicle :=
  let service_type := strUpper typeArg
  if service_type ≠ "" then
    s.vehicles.filter fun v => v.type == service_type && v.available
  else
    s.vehicles

/-- The body of the loop at lines 135-141 for the vehicle at index `i`. -/
noncomputable def refreshStep (target : PyLoc) (vs : List Vehicle) (i : ℕ) :
    List Vehicle :=
  let v := vs.getD i defVehicle
  let r := calculate_eta vs (vehiclePyLoc v) target
  r.2.set i { r.2.getD i defVehicle with eta := fmtEtaPos r.1 }

/-- The loop at lines 135-141: recompute and write every vehicle's eta. -/
noncomputable def refreshEtas (target : PyLoc) (vs : List Vehicle) :
    List Vehicle :=
  (List.range vs.length).foldl (refreshStep target) vs

/-- Handler `GET /api/location/<phone>` (lines 130-143).  `none` is the 404
`Location not found` response. -/
noncomputable def get_location (s : St) (phone : String) :
    Option (PyLoc × String) × St :=
  match get_location_from_phone s phone with
  | some ld => (some ld, { s with vehicles := refreshEtas ld.1 s.vehicles })
  | none => (none, s)

/-- One entry of the `etas` response list (lines 168-176). -/
structure EtaSummary where
  vehicleId : String
  vehicleName : String
  vehicleType : String
  etaMinutes : ℝ
  status : String
  available : Bool
  services : List String

/-- The body of the loop at lines 159-176 for the vehicle at index `i`. -/
noncomputable def calcEtasStep (target : PyLoc) (vehicle_ids : List String)
    (acc : List Vehicle × List EtaSummary) (i : ℕ) :
    List Vehicle × List EtaSummary :=
  let vs := acc.1
  let v := vs.getD i defVehicle
  if vehicle_ids.contains v.id then
    let r := calculate_eta vs (vehiclePyLoc v) target
    let w := { r.2.getD i defVehicle with eta := fmtEtaPos r.1 }
    (r.2.set i w,
     acc.2 ++ [{ vehicleId := w.id, vehicleName := w.name, vehicleType := w.type,
                 etaMinutes := r.1, status := w.status, available := w.available,
                 services := w.services }])
  else acc

/-- Handler `POST /api/calculate-etas` (lines 145-182).  `none` is the 400
`Missing location or vehicle IDs` response; a request body without a
`location` key is `emergency_location = none`. -/
noncomputable def calculate_etas (s : St) (emergency_location : Option PyLoc)
    (vehicle_ids : List String) : Option (List EtaSummary) × St :=
  match emergency_location with
  | none => (none, s)
  | some target =>
    if target.isEmpty || vehicle_ids.isEmpty then (none, s)
    else
      let r := (List.range s.vehicles.length).foldl
                 (calcEtasStep target vehicle_ids) (s.vehicles, [])
      (some r.2, { s with vehicles := r.1 })

/-- The possible responses of `POST /api/dispatch`. -/
inductive DispatchResult where
  | missingParams
  | locationNotFound
  | vehicleNotFound
  | success (eta : ℝ) (vehicle : Vehicle)

/-- Python truthiness of an optional request string: absent or empty is
falsy. -/
def truthyStr (o : Option String) : Bool :=
  match o with
  | none => false
  | some st => !(st == "")

/-- Handler `POST /api/dispatch` (lines 195-228).  The emergency location comes from
the live `phone_to_location` map via `get_phone_location`, not from the
seeded `phone_locations` map. -/
noncomputable def dispatch_vehicle (s : St) (vehicle_id phone : Option String) :
    DispatchResult × St :=
  if !truthyStr vehicle_id || !truthyStr phone then (.missingParams, s)
  else
    match get_phone_location s (phone.getD "") with
    | none => (.locationNotFound, s)
    | some emergency_location =>
      if emergency_location.isEmpty then (.locationNotFound, s)
      else
        match s.vehicles.findIdx? (fun v => v.id == vehicle_id.getD "") with
        | none => (.vehicleNotFound, s)
        | some j =>
          let v := s.vehicles.getD j defVehicle
          let r := calculate_eta s.vehicles (vehiclePyLoc v) emergency_location
          let w := { r.2.getD j defVehicle with
                       available := false, status := "EN_ROUTE",
                       eta := .mins r.1 }
          (.success r.1 w, { s with vehicles := r.2.set j w })

/-- One state transition of the core: any of the handlers or processor
mutators applied to the current state. -/
inductive Step : St → St → Prop where
  | getLocation (s : St) (phone : String) : Step s (get_location s phone).2
  | calcEtas (s : St) (loc : Option PyLoc) (ids : List String) :
      Step s (calculate_etas s loc ids).2
  | dispatch (s : St) (vid phone : Option String) :
      Step s (dispatch_vehicle s vid phone).2
  | updPhone (s : St) (phone : String) (loc : PyLoc) :
      Step s (update_phone_location s phone loc)
  | updVehicle (s : St) (vid : String) (loc : PyLoc) :
      Step s (update_vehicle_location s vid loc)

/-- States reachable from a freshly constructed processor. -/
inductive Reachable : St → Prop where
  | init (catalog : List RawVehicle) : Reachable (initState catalog)
  | step {s s' : St} : Reachable s → Step s s' → Reachable s'

/-- Modelled from the spec: 4.3 `filterByTypeAndAvailability`,
case-insensitive match on `type` AND `available == true`; written from the
spec's words for comparison with `get_vehicles`. -/
def filterByTypeAndAvailabilitySpec (vs : List Vehicle) (t : String) :
    List Vehicle :=
  vs.filter fun v => strUpper v.type == strUpper t && v.available

/-- Modelled from the spec: 4.1 `etaMinutes`,
`eta = distanceKm / speedKmh * 60` rounded to 1 decimal place, clamped up
to 1 when the distance is positive and the rounded value is below 1. -/
noncomputable def etaMinutesSpec (distanceKm speedKmh : ℝ) : ℝ :=
  let e := round1 (distanceKm / speedKmh * 60)
  if 0 < distanceKm ∧ e < 1 then 1 else e

theorem rnd_intCast (n : ℤ) : rnd n = n := by
  unfold rnd
  rw [Int.floor_intCast]
  norm_num

theorem rnd_zero : rnd 0 = 0 := by
  have h := rnd_intCast 0
  norm_num at h
  exact h

theorem round1_zero : round1 0 = 0 := by
  unfold round1
  norm_num [rnd_zero]

theorem rnd_nonneg {x : ℝ} (h : 0 ≤ x) : 0 ≤ rnd x := by
  have hf : (0 : ℤ) ≤ ⌊x⌋ := Int.floor_nonneg.2 h
  unfold rnd
  split
  · exact hf
  · split
    · omega
    · split <;> omega

theorem round1_nonneg {x : ℝ} (h : 0 ≤ x) : 0 ≤ round1 x := by
  have : (0 : ℤ) ≤ rnd (10 * x) := rnd_nonneg (by linarith)
  unfold round1
  have : (0 : ℝ) ≤ (rnd (10 * x) : ℝ) := by exact_mod_cast this
  linarith

theorem rnd_eq_one {x : ℝ} (h1 : 1 / 2 < x) (h2 : x < 1) : rnd x = 1 := by
  have hf : ⌊x⌋ = 0 := Int.floor_eq_zero_iff.2 ⟨by linarith, h2⟩
  unfold rnd
  rw [hf]
  have hx : ¬(x - (0 : ℤ) < 1 / 2) := by push_cast; linarith
  rw [if_neg hx, if_pos (by push_cast; linarith)]
  norm_num

theorem PyLoc.not_isEmpty_of_getLat {l : PyLoc} {x : ℝ}
    (h : l.getLat = some x) : l.isEmpty = false := by
  unfold PyLoc.getLat at h
  unfold PyLoc.isEmpty
  cases hl : l.latitude with
  | some a => simp [hl]
  | none =>
    rw [hl] at h
    have h' : l.lat = some x := h
    simp [h']

theorem PyLoc.not_isEmpty_of_getLat' {l : PyLoc} {x : ℝ}
    (h : l.getLat = some x) : l.isEmpty ≠ true := by
  simp [PyLoc.not_isEmpty_of_getLat h]

/-- Reduction of `calculate_eta` in the pass-through case: both dicts
resolve to four non-zero coordinates. -/
theorem calculate_eta_main (vs : List Vehicle) (vl el : PyLoc)
    {va vb ea eb : ℝ}
    (hva : vl.getLat = some va) (hvb : vl.getLng = some vb)
    (hea : el.getLat = some ea) (heb : el.getLng = some eb)
    (h1 : va ≠ 0) (h2 : vb ≠ 0) (h3 : ea ≠ 0) (h4 : eb ≠ 0) :
    calculate_eta vs vl el =
      (if round1 (haversineDistance va vb ea eb / 60 * 60) < 1 ∧
          0 < haversineDistance va vb ea eb
       then 1 else round1 (haversineDistance va vb ea eb / 60 * 60),
       attachDistance va vb (haversineDistance va vb ea eb) vs) := by
  have hb : (vl.isEmpty || el.isEmpty) = false := by
    rw [PyLoc.not_isEmpty_of_getLat hva, PyLoc.not_isEmpty_of_getLat hea]
    rfl
  unfold calculate_eta
  rw [hb]
  simp only [Bool.false_eq_true, if_false]
  rw [hva, hvb, hea, heb]
  simp only []
  rw [if_neg (show ¬(va = 0 ∨ vb = 0 ∨ ea = 0 ∨ eb = 0) by
    push_neg
    exact ⟨h1, h2, h3, h4⟩)]

theorem calculate_eta_zero_component (vs : List Vehicle) (vl el : PyLoc)
    (h : vl.getLat = some 0 ∨ vl.getLng = some 0 ∨
         el.getLat = some 0 ∨ el.getLng = some 0) :
    calculate_eta vs vl el = (0, vs) := by
  · unfold calculate_eta
    by_cases hve : (vl.isEmpty || el.isEmpty) = true
    · rw [if_pos hve]
    · rw [if_neg hve]
      rcases hva : vl.getLat with _ | va <;>
        rcases hvb : vl.getLng with _ | vb <;>
          rcases hea : el.getLat with _ | ea <;>
            rcases heb : el.getLng with _ | eb <;>
              first
                | rfl
                | (suffices hd : va = 0 ∨ vb = 0 ∨ ea = 0 ∨ eb = 0 by
                     simp only []
                     rw [if_pos hd]
                   rcases h with h | h | h | h
                   · rw [hva] at h; injection h with h; exact Or.inl h
                   · rw [hvb] at h; injection h with h
                     exact Or.inr (Or.inl h)
                   · rw [hea] at h; injection h with h
                     exact Or.inr (Or.inr (Or.inl h))
                   · rw [heb] at h; injection h with h
                     exact Or.inr (Or.inr (Or.inr h)))

/-- C3: whenever any of the four coordinate components extracted by
`calculate_eta` equals 0 — a valid coordinate on the equator or prime
meridian — the function returns 0 without touching the vehicle list,
exactly the result produced for an absent coordinate. -/
theorem C3_zero_coordinate_short_circuit (vs : List Vehicle) (vl el : PyLoc)
    (h : vl.getLat = some 0 ∨ vl.getLng = some 0 ∨
         el.getLat = some 0 ∨ el.getLng = some 0) :
    calculate_eta vs vl el = (0, vs) ∧
    calculate_eta vs { latitude := none, longitude := none,
                       lat := none, lng := none } el = (0, vs) :=
  ⟨calculate_eta_zero_component vs vl el h, rfl⟩

/-- C5: with all four coordinate components present and non-zero, the
returned ETA is the spec formula: haversine distance (R = 6371) divided by
the fixed speed 60 km/h, times 60, rounded to one decimal place, clamped
up to 1 when the distance is positive and the rounded value is below 1;
a zero distance yields 0, and the concrete clamp example (0.5 km at
60 km/h) yields 1. -/
theorem C5_eta_matches_spec_formula (vs : List Vehicle) (vl el : PyLoc)
    {va vb ea eb : ℝ}
    (hva : vl.getLat = some va) (hvb : vl.getLng = some vb)
    (hea : el.getLat = some ea) (heb : el.getLng = some eb)
    (h1 : va ≠ 0) (h2 : vb ≠ 0) (h3 : ea ≠ 0) (h4 : eb ≠ 0) :
    (calculate_eta vs vl el).1 =
      etaMinutesSpec (haversineDistance va vb ea eb) 60 ∧
    (haversineDistance va vb ea eb = 0 → (calculate_eta vs vl el).1 = 0) ∧
    etaMinutesSpec (1 / 2) 60 = 1 := by
  have hmain := calculate_eta_main vs vl el hva hvb hea heb h1 h2 h3 h4
  have hspec : ∀ d : ℝ, etaMinutesSpec d 60 =
      if round1 (d / 60 * 60) < 1 ∧ 0 < d then 1 else round1 (d / 60 * 60) := by
    intro d
    unfold etaMinutesSpec
    by_cases hd : 0 < d ∧ round1 (d / 60 * 60) < 1
    · rw [if_pos hd, if_pos ⟨hd.2, hd.1⟩]
    · rw [if_neg hd, if_neg (by tauto)]
  refine ⟨?_, ?_, ?_⟩
  · rw [hmain, hspec]
  · intro hd0
    have h00 : (0 : ℝ) / 60 * 60 = 0 := by norm_num
    rw [hmain]
    simp only [hd0, h00, round1_zero]
    norm_num
  · unfold etaMinutesSpec
    have h5 : (10 : ℝ) * (1 / 2 / 60 * 60) = ((5 : ℤ) : ℝ) := by norm_num
    have hr : round1 (1 / 2 / 60 * 60) = 1 / 2 := by
      unfold round1
      rw [h5, rnd_intCast]
      norm_num
    rw [hr]
    norm_num

/-- C5 witness: the formula equality instantiated at the concrete pair of
locations ((13, 77), (14, 78)). -/
theorem C5_eta_matches_spec_formula_witness :
    (calculate_eta [] { latitude := some 13, longitude := some 77 }
        { lat := some 14, lng := some 78 }).1 =
      etaMinutesSpec (haversineDistance 13 77 14 78) 60 ∧
    (haversineDistance 13 77 14 78 = 0 →
      (calculate_eta [] { latitude := some 13, longitude := some 77 }
          { lat := some 14, lng := some 78 }).1 = 0) ∧
    etaMinutesSpec (1 / 2) 60 = 1 :=
  C5_eta_matches_spec_formula []
    { latitude := some 13, longitude := some 77 }
    { lat := some 14, lng := some 78 }
    rfl rfl rfl rfl (by norm_num) (by norm_num) (by norm_num) (by norm_num)

/-- C8 (amended): with a non-empty filter the listing returns exactly the
vehicles whose stored type equals the upper-cased filter and that are
available; with no (or an empty) filter it returns all vehicles. -/
theorem C8_filter_semantics (s : St) (t : String) :
    get_vehicles s t =
      (if strUpper t = "" then s.vehicles
       else s.vehicles.filter fun v => v.type == strUpper t && v.available) ∧
    get_vehicles s "" = s.vehicles := by
  constructor
  · unfold get_vehicles
    by_cases h : strUpper t = ""
    · simp [h]
    · simp [h]
  · rfl

/-- Sample vehicle with a mixed-case type, used to separate the code's
filter from the spec's case-insensitive filter. -/
def vAmbulance : Vehicle :=
  { id := "V1", name := "Ambulance 1", type := "Ambulance",
    location := ⟨13, 77⟩, services := ["medical"], eta := .na,
    available := true, status := "AVAILABLE", distance := none }

/-- A registry state holding only `vAmbulance`. -/
def sAmbulance : St :=
  { vehicles := [vAmbulance],
    vehicle_locations := fun _ => none,
    phone_to_location := fun _ => none,
    phone_locations := phoneLocationsInit }

/-- C8 counterexample: for the filter `"ambulance"` the code returns no
vehicle although the available vehicle `vAmbulance` has type `"Ambulance"`,
a case-insensitive match — the code compares the stored type against the
upper-cased filter exactly. -/
theorem C8_filter_counterexample :
    get_vehicles sAmbulance "ambulance" = [] ∧
    filterByTypeAndAvailabilitySpec sAmbulance.vehicles "ambulance" =
      [vAmbulance] := by
  constructor <;> rfl

theorem attachDistance_no_match (va vb d : ℝ) (vs : List Vehicle)
    (h : ∀ v ∈ vs, ¬(v.location.latitude = va ∧ v.location.longitude = vb)) :
    attachDistance va vb d vs = vs := by
  induction vs with
  | nil => rfl
  | cons v rest ih =>
    unfold attachDistance
    rw [if_neg (h v (by simp))]
    rw [ih fun u hu => h u (by simp [hu])]

theorem attachDistance_first_match (va vb d : ℝ) (pre : List Vehicle)
    (v : Vehicle) (post : List Vehicle)
    (hpre : ∀ u ∈ pre, ¬(u.location.latitude = va ∧ u.location.longitude = vb))
    (hv : v.location.latitude = va ∧ v.location.longitude = vb) :
    attachDistance va vb d (pre ++ v :: post) =
      pre ++ { v with distance := some (round1 d) } :: post := by
  induction pre with
  | nil =>
    simp only [List.nil_append]
    unfold attachDistance
    rw [if_pos hv]
  | cons u rest ih =>
    simp only [List.cons_append]
    unfold attachDistance
    rw [if_neg (hpre u (by simp))]
    rw [ih fun w hw => hpre w (by simp [hw])]

/-- C10: the rounded distance is attached to the first registry vehicle
whose stored coordinates are exactly equal to the supplied vehicle
coordinates, all its other fields and every other vehicle being unchanged,
and no vehicle is touched when no exact coordinate match exists.  The
attachment is keyed purely on floating-point coordinate equality, never on
the id named in the surrounding request. -/
theorem C10_distance_attached_by_coordinate_match (vs : List Vehicle)
    (vl el : PyLoc) {va vb ea eb : ℝ}
    (hva : vl.getLat = some va) (hvb : vl.getLng = some vb)
    (hea : el.getLat = some ea) (heb : el.getLng = some eb)
    (h1 : va ≠ 0) (h2 : vb ≠ 0) (h3 : ea ≠ 0) (h4 : eb ≠ 0) :
    ((∀ v ∈ vs, ¬(v.location.latitude = va ∧ v.location.longitude = vb)) →
       (calculate_eta vs vl el).2 = vs) ∧
    (∀ pre v post, vs = pre ++ v :: post →
       (∀ u ∈ pre, ¬(u.location.latitude = va ∧ u.location.longitude = vb)) →
       (v.location.latitude = va ∧ v.location.longitude = vb) →
       (calculate_eta vs vl el).2 =
         pre ++
           { v with
             distance := some (round1 (haversineDistance va vb ea eb)) } ::
           post) := by
  have hmain := calculate_eta_main vs vl el hva hvb hea heb h1 h2 h3 h4
  constructor
  · intro h
    rw [hmain]
    exact attachDistance_no_match _ _ _ _ h
  · intro pre v post hsplit hpre hv
    rw [hmain]
    simp only [hsplit]
    exact attachDistance_first_match _ _ _ _ _ _ hpre hv

/-- Second sample vehicle sharing `vAmbulance`-like coordinates with
`vTruckA`, for the coordinate-collision scenario. -/
def vTruckA : Vehicle :=
  { id := "A", name := "Truck A", type := "FIRE",
    location := ⟨13, 77⟩, services := [], eta := .na,
    available := true, status := "AVAILABLE", distance := none }

/-- Vehicle named in the request of the C10 scenario; it shares its exact
coordinates with `vTruckA`, which precedes it in the registry. -/
def vTruckB : Vehicle :=
  { id := "B", name := "Truck B", type := "FIRE",
    location := ⟨13, 77⟩, services := [], eta := .na,
    available := true, status := "AVAILABLE", distance := none }

/-- C10 witness: in a registry `[vTruckA, vTruckB]` where both vehicles sit
at (13, 77), an ETA computation supplied with vehicle coordinates (13, 77)
writes the rounded distance into `vTruckA` — the first coordinate match —
and leaves `vTruckB` unchanged. -/
theorem C10_distance_attached_by_coordinate_match_witness :
    (calculate_eta [vTruckA, vTruckB]
        { latitude := some 13, longitude := some 77 }
        { lat := some 14, lng := some 78 }).2 =
      { vTruckA with
        distance := some (round1 (haversineDistance 13 77 14 78)) } ::
        [vTruckB] :=
  (C10_distance_attached_by_coordinate_match [vTruckA, vTruckB]
      { latitude := some 13, longitude := some 77 }
      { lat := some 14, lng := some 78 }
      rfl rfl rfl rfl (by norm_num) (by norm_num) (by norm_num)
      (by norm_num)).2
    [] vTruckA [vTruckB] rfl (by simp) ⟨rfl, rfl⟩

/-- C3 witness: a vehicle latitude of exactly 0 short-circuits the ETA
computation to 0 with the registry untouched. -/
theorem C3_zero_coordinate_short_circuit_witness :
    calculate_eta [vTruckA] { latitude := some 0, longitude := some 77 }
        { lat := some 13, lng := some 78 } = (0, [vTruckA]) ∧
    calculate_eta [vTruckA]
        { latitude := none, longitude := none, lat := none, lng := none }
        { lat := some 13, lng := some 78 } = (0, [vTruckA]) :=
  C3_zero_coordinate_short_circuit [vTruckA]
    { latitude := some 0, longitude := some 77 }
    { lat := some 13, lng := some 78 } (Or.inl rfl)

/-- Reduction of `calculate_etas` once the request carries a `location`. -/
theorem calculate_etas_some (s : St) (target : PyLoc) (ids : List String) :
    calculate_etas s (some target) ids =
      if (target.isEmpty || ids.isEmpty) = true then (none, s)
      else
        let r := (List.range s.vehicles.length).foldl
                   (calcEtasStep target ids) (s.vehicles, [])
        (some r.2, { s with vehicles := r.1 }) := rfl

theorem step_preserves_phone_locations {s s' : St} (h : Step s s') :
    s'.phone_locations = s.phone_locations := by
  cases h with
  | getLocation phone =>
    unfold get_location
    cases hg : get_location_from_phone s phone <;> simp only [hg]
  | calcEtas loc ids =>
    cases loc with
    | none => rfl
    | some target =>
      rw [calculate_etas_some]
      by_cases hc : (target.isEmpty || ids.isEmpty) = true
      · rw [if_pos hc]
      · rw [if_neg hc]
  | dispatch vid phone =>
    unfold dispatch_vehicle
    by_cases h1 : (!truthyStr vid || !truthyStr phone) = true
    · rw [if_pos h1]
    · rw [if_neg h1]
      cases h2 : get_phone_location s (phone.getD "") with
      | none => rfl
      | some el =>
        simp only [h2]
        by_cases h3 : el.isEmpty = true
        · rw [if_pos h3]
        · rw [if_neg h3]
          cases h4 : s.vehicles.findIdx? (fun v => v.id == vid.getD "") with
          | none => simp only [h4]
          | some j => simp only [h4]
  | updPhone phone loc => rfl
  | updVehicle vid loc => rfl

theorem reachable_phone_locations {s : St} (h : Reachable s) :
    s.phone_locations = phoneLocationsInit := by
  induction h with
  | init catalog => rfl
  | step hs hstep ih =>
    rw [step_preserves_phone_locations hstep, ih]

/-- C6: resolving a phone number absent from the seeded reference map
returns the not-found result and returns the state unchanged — in
particular no vehicle's eta is mutated. -/
theorem C6_unknown_phone_no_mutation {s : St} (hs : Reachable s)
    (phone : String) (h : phoneLocationsInit phone = none) :
    get_location s phone = (none, s) := by
  unfold get_location get_location_from_phone
  rw [reachable_phone_locations hs, h]

/-- C6 witness: the unknown phone `"0000000000"` on a freshly started
system. -/
theorem C6_unknown_phone_no_mutation_witness :
    get_location (initState []) "0000000000" = (none, initState []) :=
  C6_unknown_phone_no_mutation (Reachable.init []) "0000000000" rfl

/-- All vehicle fields except `eta` and `distance` agree. -/
def coreEq (v w : Vehicle) : Prop :=
  v.id = w.id ∧ v.name = w.name ∧ v.type = w.type ∧
  v.location = w.location ∧ v.services = w.services ∧
  v.available = w.available ∧ v.status = w.status

theorem coreEq_refl (v : Vehicle) : coreEq v v :=
  ⟨rfl, rfl, rfl, rfl, rfl, rfl, rfl⟩

theorem coreEq_trans {u v w : Vehicle} (h1 : coreEq u v) (h2 : coreEq v w) :
    coreEq u w := by
  obtain ⟨a1, b1, c1, d1, e1, f1, g1⟩ := h1
  obtain ⟨a2, b2, c2, d2, e2, f2, g2⟩ := h2
  exact ⟨a1.trans a2, b1.trans b2, c1.trans c2, d1.trans d2, e1.trans e2,
    f1.trans f2, g1.trans g2⟩

/-- All vehicle fields except `distance` agree. -/
def sameED (v w : Vehicle) : Prop := coreEq v w ∧ v.eta = w.eta

theorem sameED_refl (v : Vehicle) : sameED v v := ⟨coreEq_refl v, rfl⟩

theorem vehiclePyLoc_congr {v w : Vehicle} (h : v.location = w.location) :
    vehiclePyLoc v = vehiclePyLoc w := by
  unfold vehiclePyLoc
  rw [h]

theorem attachDistance_length (va vb d : ℝ) (vs : List Vehicle) :
    (attachDistance va vb d vs).length = vs.length := by
  induction vs with
  | nil => rfl
  | cons v rest ih =>
    unfold attachDistance
    split
    · simp
    · simp [ih]

theorem attachDistance_getD (va vb d : ℝ) (vs : List Vehicle) (i : ℕ) :
    sameED ((attachDistance va vb d vs).getD i defVehicle)
      (vs.getD i defVehicle) := by
  induction vs generalizing i with
  | nil => exact sameED_refl _
  | cons v rest ih =>
    unfold attachDistance
    split
    · cases i with
      | zero => exact ⟨⟨rfl, rfl, rfl, rfl, rfl, rfl, rfl⟩, rfl⟩
      | succ n => exact sameED_refl _
    · cases i with
      | zero => exact sameED_refl _
      | succ n =>
        simp only [List.getD_cons_succ]
        exact ih n

theorem calculate_eta_snd_getD (vs : List Vehicle) (vl el : PyLoc) (i : ℕ) :
    sameED ((calculate_eta vs vl el).2.getD i defVehicle)
      (vs.getD i defVehicle) := by
  unfold calculate_eta
  by_cases hb : (vl.isEmpty || el.isEmpty) = true
  · rw [if_pos hb]
    exact sameED_refl _
  · rw [if_neg hb]
    cases h1 : vl.getLat with
    | none =>
      cases h2 : vl.getLng <;> cases h3 : el.getLat <;>
        cases h4 : el.getLng <;> exact sameED_refl _
    | some va =>
      cases h2 : vl.getLng with
      | none =>
        cases h3 : el.getLat <;> cases h4 : el.getLng <;> exact sameED_refl _
      | some vb =>
        cases h3 : el.getLat with
        | none => cases h4 : el.getLng <;> exact sameED_refl _
        | some ea =>
          cases h4 : el.getLng with
          | none => exact sameED_refl _
          | some eb =>
            simp only []
            by_cases hg : va = 0 ∨ vb = 0 ∨ ea = 0 ∨ eb = 0
            · rw [if_pos hg]
              exact sameED_refl _
            · rw [if_neg hg]
              exact attachDistance_getD _ _ _ _ _

theorem calculate_eta_snd_length (vs : List Vehicle) (vl el : PyLoc) :
    (calculate_eta vs vl el).2.length = vs.length := by
  unfold calculate_eta
  by_cases hb : (vl.isEmpty || el.isEmpty) = true
  · rw [if_pos hb]
  · rw [if_neg hb]
    cases h1 : vl.getLat with
    | none =>
      cases h2 : vl.getLng <;> cases h3 : el.getLat <;>
        cases h4 : el.getLng <;> rfl
    | some va =>
      cases h2 : vl.getLng with
      | none => cases h3 : el.getLat <;> cases h4 : el.getLng <;> rfl
      | some vb =>
        cases h3 : el.getLat with
        | none => cases h4 : el.getLng <;> rfl
        | some ea =>
          cases h4 : el.getLng with
          | none => rfl
          | some eb =>
            simp only []
            by_cases hg : va = 0 ∨ vb = 0 ∨ ea = 0 ∨ eb = 0
            · rw [if_pos hg]
            · rw [if_neg hg]
              exact attachDistance_length _ _ _ _

theorem calculate_eta_fst_list_indep (vs : List Vehicle) (vl el : PyLoc) :
    (calculate_eta vs vl el).1 = etaValue vl el := by
  unfold etaValue calculate_eta
  by_cases hb : (vl.isEmpty || el.isEmpty) = true
  · rw [if_pos hb, if_pos hb]
  · rw [if_neg hb, if_neg hb]
    cases h1 : vl.getLat with
    | none =>
      cases h2 : vl.getLng <;> cases h3 : el.getLat <;>
        cases h4 : el.getLng <;> rfl
    | some va =>
      cases h2 : vl.getLng with
      | none => cases h3 : el.getLat <;> cases h4 : el.getLng <;> rfl
      | some vb =>
        cases h3 : el.getLat with
        | none => cases h4 : el.getLng <;> rfl
        | some ea =>
          cases h4 : el.getLng with
          | none => rfl
          | some eb =>
            simp only []
            by_cases hg : va = 0 ∨ vb = 0 ∨ ea = 0 ∨ eb = 0
            · rw [if_pos hg, if_pos hg]
            · rw [if_neg hg, if_neg hg]

theorem getD_set_self (l : List Vehicle) (i : ℕ) (a : Vehicle)
    (h : i < l.length) : (l.set i a).getD i defVehicle = a := by
  simp [List.getD_eq_getElem?_getD, List.getElem?_set_self h]

theorem getD_set_ne (l : List Vehicle) {i j : ℕ} (a : Vehicle) (h : i ≠ j) :
    (l.set i a).getD j defVehicle = l.getD j defVehicle := by
  simp [List.getD_eq_getElem?_getD, List.getElem?_set_ne h]

/-- Invariant carried through the eta-refresh loop at lines 135-141: after
`k` iterations, vehicles before index `k` hold the freshly computed eta,
those from `k` on hold their previous eta, and no other field except
`distance` ever changes. -/
def RefreshInv (target : PyLoc) (orig : List Vehicle) (k : ℕ)
    (ws : List Vehicle) : Prop :=
  ws.length = orig.length ∧
  ∀ i, coreEq (ws.getD i defVehicle) (orig.getD i defVehicle) ∧
    (i < k → i < orig.length →
      (ws.getD i defVehicle).eta =
        fmtEtaPos (etaValue (vehiclePyLoc (orig.getD i defVehicle)) target)) ∧
    (k ≤ i → (ws.getD i defVehicle).eta = (orig.getD i defVehicle).eta)

theorem refreshStep_inv {target : PyLoc} {orig : List Vehicle} {k : ℕ}
    {ws : List Vehicle} (hk : k < orig.length)
    (h : RefreshInv target orig k ws) :
    RefreshInv target orig (k + 1) (refreshStep target ws k) := by
  obtain ⟨hlen, hpt⟩ := h
  unfold refreshStep
  have hrlen : (calculate_eta ws
      (vehiclePyLoc (ws.getD k defVehicle)) target).2.length = ws.length :=
    calculate_eta_snd_length _ _ _
  have hklt : k < (calculate_eta ws
      (vehiclePyLoc (ws.getD k defVehicle)) target).2.length := by omega
  constructor
  · simp only [List.length_set]
    omega
  · intro i
    by_cases hik : i = k
    · subst hik
      rw [getD_set_self _ _ _ hklt]
      have hsame := calculate_eta_snd_getD ws
        (vehiclePyLoc (ws.getD i defVehicle)) target i
      refine ⟨?_, ?_, ?_⟩
      · exact coreEq_trans
          (coreEq_trans ⟨rfl, rfl, rfl, rfl, rfl, rfl, rfl⟩ hsame.1)
          (hpt i).1
      · intro _ _
        show fmtEtaPos (calculate_eta ws
            (vehiclePyLoc (ws.getD i defVehicle)) target).1 = _
        rw [calculate_eta_fst_list_indep,
          vehiclePyLoc_congr (hpt i).1.2.2.2.1]
      · intro hcon
        omega
    · rw [getD_set_ne _ _ fun he => hik he.symm]
      have hsame := calculate_eta_snd_getD ws
        (vehiclePyLoc (ws.getD k defVehicle)) target i
      refine ⟨coreEq_trans hsame.1 (hpt i).1, ?_, ?_⟩
      · intro hik1 hilen
        rw [hsame.2]
        exact (hpt i).2.1 (by omega) hilen
      · intro hge
        rw [hsame.2]
        exact (hpt i).2.2 (by omega)

theorem refreshEtas_inv (target : PyLoc) (orig : List Vehicle) :
    RefreshInv target orig orig.length (refreshEtas target orig) := by
  unfold refreshEtas
  have h : ∀ k, k ≤ orig.length →
      RefreshInv target orig k
        ((List.range k).foldl (refreshStep target) orig) := by
    intro k
    induction k with
    | zero =>
      intro _
      exact ⟨rfl, fun i =>
        ⟨coreEq_refl _, fun h1 _ => absurd h1 (Nat.not_lt_zero i),
         fun _ => rfl⟩⟩
    | succ n ih =>
      intro hle
      rw [List.range_succ, List.foldl_append, List.foldl_cons,
        List.foldl_nil]
      exact refreshStep_inv (by omega) (ih (by omega))
  exact h orig.length le_rfl

/-- The raw catalog record used by the concrete witnesses: one ambulance
parked at (13.3409, 77.1025). -/
def rawAmbulance : RawVehicle :=
  { id := "V1", name := "Ambulance 1", type := "AMBULANCE",
    location := ⟨13.3409, 77.1025⟩, services := ["medical"] }

/-- C7: resolving a phone number present in the seeded reference map
returns that phone's location record and, as a side effect, recomputes and
writes the eta field of every vehicle in the registry against that
location, leaving all fields other than `eta` and `distance` unchanged. -/
theorem C7_known_phone_refreshes_all_etas {s : St} (hs : Reachable s)
    (phone : String) (r : PhoneRec)
    (h : phoneLocationsInit phone = some r) :
    (get_location s phone).1 =
      some ({ lat := some r.lat, lng := some r.lng }, r.address) ∧
    (get_location s phone).2.vehicles.length = s.vehicles.length ∧
    ∀ i < s.vehicles.length,
      coreEq ((get_location s phone).2.vehicles.getD i defVehicle)
        (s.vehicles.getD i defVehicle) ∧
      ((get_location s phone).2.vehicles.getD i defVehicle).eta =
        fmtEtaPos (etaValue (vehiclePyLoc (s.vehicles.getD i defVehicle))
          { lat := some r.lat, lng := some r.lng }) := by
  have hres : get_location_from_phone s phone =
      some ({ lat := some r.lat, lng := some r.lng }, r.address) := by
    unfold get_location_from_phone
    rw [reachable_phone_locations hs, h]
  unfold get_location
  simp only [hres]
  obtain ⟨hlen, hpt⟩ := refreshEtas_inv
    ({ lat := some r.lat, lng := some r.lng } : PyLoc) s.vehicles
  exact ⟨trivial, hlen, fun i hi => ⟨(hpt i).1, (hpt i).2.1 hi hi⟩⟩

/-- C7 witness: resolving the seeded phone `"9876543210"` on a fresh
single-ambulance registry returns the Tumkur City Center record and writes
the recomputed eta of that ambulance. -/
theorem C7_known_phone_refreshes_all_etas_witness :
    (get_location (initState [rawAmbulance]) "9876543210").1 =
      some ({ lat := some 13.3409, lng := some 77.1025 },
        "Tumkur City Center") ∧
    ((get_location (initState [rawAmbulance])
        "9876543210").2.vehicles.getD 0 defVehicle).eta =
      fmtEtaPos (etaValue
        (vehiclePyLoc ((initState [rawAmbulance]).vehicles.getD 0 defVehicle))
        { lat := some 13.3409, lng := some 77.1025 }) := by
  obtain ⟨h1, h2, h3⟩ := C7_known_phone_refreshes_all_etas
    (Reachable.init [rawAmbulance]) "9876543210"
    ⟨13.3409, 77.1025, "Tumkur City Center"⟩ rfl
  exact ⟨h1, (h3 0 (by simp [initState, load_vehicles])).2⟩

/-- Expected projection of one vehicle into its batch-ETA summary entry
(lines 168-176). -/
noncomputable def mkSummary (target : PyLoc) (v : Vehicle) : EtaSummary :=
  { vehicleId := v.id, vehicleName := v.name, vehicleType := v.type,
    etaMinutes := etaValue (vehiclePyLoc v) target, status := v.status,
    available := v.available, services := v.services }

/-- Invariant of the batch-ETA loop at lines 159-176: after `k` iterations
the summary list covers exactly the requested vehicles among the first `k`
registry entries, in registry order, and vehicle state differs from the
original only in `eta` (for matched processed vehicles) and `distance`. -/
def BatchInv (target : PyLoc) (ids : List String) (orig : List Vehicle)
    (k : ℕ) (p : List Vehicle × List EtaSummary) : Prop :=
  p.1.length = orig.length ∧
  (∀ i, coreEq (p.1.getD i defVehicle) (orig.getD i defVehicle) ∧
    (i < k → i < orig.length → (p.1.getD i defVehicle).eta =
      (if ids.contains (orig.getD i defVehicle).id
       then fmtEtaPos (etaValue (vehiclePyLoc (orig.getD i defVehicle)) target)
       else (orig.getD i defVehicle).eta)) ∧
    (k ≤ i → (p.1.getD i defVehicle).eta = (orig.getD i defVehicle).eta)) ∧
  p.2 = ((orig.take k).filter fun v => ids.contains v.id).map
    (mkSummary target)

theorem calcEtasStep_inv {target : PyLoc} {ids : List String}
    {orig : List Vehicle} {k : ℕ} {p : List Vehicle × List EtaSummary}
    (hk : k < orig.length) (h : BatchInv target ids orig k p) :
    BatchInv target ids orig (k + 1) (calcEtasStep target ids p k) := by
  obtain ⟨hlen, hpt, hacc⟩ := h
  have hgd : orig.getD k defVehicle = orig[k] := by
    simp [List.getD_eq_getElem?_getD, List.getElem?_eq_getElem hk]
  have htake : orig.take (k + 1) = orig.take k ++ [orig.getD k defVehicle] := by
    rw [List.take_succ, List.getElem?_eq_getElem hk, hgd]
    rfl
  have hid : (p.1.getD k defVehicle).id = (orig.getD k defVehicle).id :=
    (hpt k).1.1
  simp only [calcEtasStep]
  by_cases hc : ids.contains (p.1.getD k defVehicle).id = true
  · rw [if_pos hc]
    have hrlen : (calculate_eta p.1
        (vehiclePyLoc (p.1.getD k defVehicle)) target).2.length =
          p.1.length := calculate_eta_snd_length _ _ _
    have hklt : k < (calculate_eta p.1
        (vehiclePyLoc (p.1.getD k defVehicle)) target).2.length := by omega
    have hsame : ∀ i, sameED ((calculate_eta p.1
        (vehiclePyLoc (p.1.getD k defVehicle)) target).2.getD i defVehicle)
          (p.1.getD i defVehicle) :=
      fun i => calculate_eta_snd_getD _ _ _ i
    have hr1 : (calculate_eta p.1
        (vehiclePyLoc (p.1.getD k defVehicle)) target).1 =
          etaValue (vehiclePyLoc (orig.getD k defVehicle)) target := by
      rw [calculate_eta_fst_list_indep,
        vehiclePyLoc_congr (hpt k).1.2.2.2.1]
    have hwcore : coreEq
        ({ (calculate_eta p.1 (vehiclePyLoc (p.1.getD k defVehicle))
              target).2.getD k defVehicle with
           eta := fmtEtaPos (calculate_eta p.1
             (vehiclePyLoc (p.1.getD k defVehicle)) target).1 })
        (orig.getD k defVehicle) :=
      coreEq_trans
        (coreEq_trans ⟨rfl, rfl, rfl, rfl, rfl, rfl, rfl⟩ (hsame k).1)
        (hpt k).1
    refine ⟨?_, ?_, ?_⟩
    · simp only [List.length_set]
      omega
    · intro i
      by_cases hik : i = k
      · subst hik
        rw [getD_set_self _ _ _ hklt]
        refine ⟨hwcore, ?_, ?_⟩
        · intro _ _
          rw [if_pos (by rw [← hid]; exact hc)]
          show fmtEtaPos (calculate_eta p.1
            (vehiclePyLoc (p.1.getD i defVehicle)) target).1 = _
          rw [hr1]
        · intro hcon
          omega
      · rw [getD_set_ne _ _ fun he => hik he.symm]
        refine ⟨coreEq_trans (hsame i).1 (hpt i).1, ?_, ?_⟩
        · intro hik1 hilen
          rw [(hsame i).2]
          exact (hpt i).2.1 (by omega) hilen
        · intro hge
          rw [(hsame i).2]
          exact (hpt i).2.2 (by omega)
    · show p.2 ++ [_] = _
      rw [htake, List.filter_append, List.map_append, hacc]
      congr 1
      have hcond : ids.contains (orig.getD k defVehicle).id = true := by
        rw [← hid]
        exact hc
      rw [show List.filter (fun v => ids.contains v.id)
            [orig.getD k defVehicle] = [orig.getD k defVehicle] by
          simp only [List.filter, hcond]]
      show [_] = [mkSummary target (orig.getD k defVehicle)]
      congr 1
      unfold mkSummary
      rw [hwcore.1, hwcore.2.1, hwcore.2.2.1, hr1, hwcore.2.2.2.2.2.2,
        hwcore.2.2.2.2.2.1, hwcore.2.2.2.2.1]
  · rw [if_neg hc]
    refine ⟨hlen, ?_, ?_⟩
    · intro i
      refine ⟨(hpt i).1, ?_, fun hge => (hpt i).2.2 (by omega)⟩
      intro hik hilen
      by_cases hik' : i = k
      · subst hik'
        rw [if_neg (by rw [← hid]; exact hc)]
        exact (hpt i).2.2 le_rfl
      · exact (hpt i).2.1 (by omega) hilen
    · rw [htake, List.filter_append, List.map_append, hacc]
      have hcond : ids.contains (orig.getD k defVehicle).id = false := by
        rw [← hid]
        cases hb : ids.contains (p.1.getD k defVehicle).id
        · rfl
        · exact absurd hb hc
      rw [show List.filter (fun v => ids.contains v.id)
            [orig.getD k defVehicle] = [] by
          simp only [List.filter, hcond]]
      simp

theorem calcEtas_fold_inv (target : PyLoc) (ids : List String)
    (orig : List Vehicle) :
    BatchInv target ids orig orig.length
      ((List.range orig.length).foldl (calcEtasStep target ids)
        (orig, [])) := by
  have h : ∀ k, k ≤ orig.length →
      BatchInv target ids orig k
        ((List.range k).foldl (calcEtasStep target ids) (orig, [])) := by
    intro k
    induction k with
    | zero =>
      intro _
      exact ⟨rfl, fun i =>
        ⟨coreEq_refl _, fun h1 _ => absurd h1 (Nat.not_lt_zero i),
         fun _ => rfl⟩, rfl⟩
    | succ n ih =>
      intro hle
      rw [List.range_succ, List.foldl_append, List.foldl_cons,
        List.foldl_nil]
      exact calcEtasStep_inv (by omega) (ih (by omega))
  exact h orig.length le_rfl

/-- C9: a batch ETA request with a non-empty target and non-empty id list
answers with exactly the requested vehicles that exist in the registry, in
registry iteration order — ids without a registry vehicle are silently
skipped — and, when registry ids are unique, each requested id present in
the registry produces exactly one summary entry. -/
theorem C9_batch_eta_projection (s : St) (target : PyLoc)
    (ids : List String) (h1 : target.isEmpty = false) (h2 : ids ≠ []) :
    (calculate_etas s (some target) ids).1 =
      some ((s.vehicles.filter fun v => ids.contains v.id).map
        (mkSummary target)) ∧
    ((s.vehicles.map fun v => v.id).Nodup → ∀ vid ∈ ids,
      ((s.vehicles.filter fun v => ids.contains v.id).map
        (mkSummary target)).countP (fun e => e.vehicleId == vid) =
        if vid ∈ s.vehicles.map (fun v => v.id) then 1 else 0) := by
  have hids : ids.isEmpty = false := by
    cases ids with
    | nil => exact absurd rfl h2
    | cons a t => rfl
  constructor
  · rw [calculate_etas_some]
    rw [if_neg (by rw [h1, hids]; simp)]
    show some ((List.range s.vehicles.length).foldl
      (calcEtasStep target ids) (s.vehicles, [])).2 = _
    rw [(calcEtas_fold_inv target ids s.vehicles).2.2, List.take_length]
  · intro hnd vid hvid
    rw [List.countP_map, List.countP_filter]
    have hcount : ∀ v : Vehicle,
        ((fun e : EtaSummary => e.vehicleId == vid) ∘ mkSummary target) v =
          (v.id == vid) := fun v => rfl
    calc (s.vehicles.countP fun a =>
            ((fun e : EtaSummary => e.vehicleId == vid) ∘ mkSummary target) a
              && ids.contains a.id)
        = s.vehicles.countP fun a => a.id == vid := by
          apply List.countP_congr
          intro x _
          rw [hcount]
          constructor
          · intro hx
            exact (Bool.and_elim_left hx)
          · intro hx
            have hxid : x.id = vid := by
              have := of_decide_eq_true (by exact_mod_cast hx)
              exact this
            rw [hx, Bool.true_and]
            rw [hxid]
            exact (List.elem_iff.2 hvid)
      _ = (s.vehicles.map fun v => v.id).countP (fun a => a == vid) := by
          rw [List.countP_map]
          rfl
      _ = (s.vehicles.map fun v => v.id).count vid := by
          rw [List.count_eq_countP]
      _ = if vid ∈ s.vehicles.map (fun v => v.id) then 1 else 0 :=
          List.count_eq_of_nodup hnd

theorem arctan_nonneg' {z : ℝ} (hz : 0 ≤ z) : 0 ≤ Real.arctan z := by
  have h := Real.arctan_strictMono.monotone hz
  rwa [Real.arctan_zero] at h

theorem atan2_nonneg {y x : ℝ} (hy : 0 ≤ y) (hx : 0 ≤ x) :
    0 ≤ atan2 y x := by
  unfold atan2
  by_cases h1 : 0 < x
  · rw [if_pos h1]
    exact arctan_nonneg' (div_nonneg hy (le_of_lt h1))
  · rw [if_neg h1, if_neg (not_lt.2 hx)]
    by_cases h2 : 0 < y
    · rw [if_pos h2]
      positivity
    · rw [if_neg h2, if_neg (not_lt.2 hy)]

theorem hav_shape_nonneg (u w : ℝ) :
    (0 : ℝ) ≤ 6371 * (2 * atan2 (Real.sqrt u) (Real.sqrt w)) := by
  have h := atan2_nonneg (Real.sqrt_nonneg u) (Real.sqrt_nonneg w)
  linarith

theorem haversineDistance_nonneg (vlat vlng elat elng : ℝ) :
    0 ≤ haversineDistance vlat vlng elat elng :=
  hav_shape_nonneg _ _

theorem calculate_eta_fst_nonneg (vs : List Vehicle) (vl el : PyLoc) :
    0 ≤ (calculate_eta vs vl el).1 := by
  unfold calculate_eta
  by_cases hb : (vl.isEmpty || el.isEmpty) = true
  · rw [if_pos hb]
  · rw [if_neg hb]
    cases h1 : vl.getLat with
    | none =>
      cases h2 : vl.getLng <;> cases h3 : el.getLat <;>
        cases h4 : el.getLng <;> exact le_rfl
    | some va =>
      cases h2 : vl.getLng with
      | none => cases h3 : el.getLat <;> cases h4 : el.getLng <;> exact le_rfl
      | some vb =>
        cases h3 : el.getLat with
        | none => cases h4 : el.getLng <;> exact le_rfl
        | some ea =>
          cases h4 : el.getLng with
          | none => exact le_rfl
          | some eb =>
            simp only []
            by_cases hg : va = 0 ∨ vb = 0 ∨ ea = 0 ∨ eb = 0
            · rw [if_pos hg]
            · rw [if_neg hg]
              show 0 ≤ (if round1 (haversineDistance va vb ea eb / 60 * 60) < 1
                  ∧ 0 < haversineDistance va vb ea eb
                then 1 else round1 (haversineDistance va vb ea eb / 60 * 60))
              by_cases hc : round1 (haversineDistance va vb ea eb / 60 * 60) < 1
                  ∧ 0 < haversineDistance va vb ea eb
              · rw [if_pos hc]
                norm_num
              · rw [if_neg hc]
                have hd := haversineDistance_nonneg va vb ea eb
                exact round1_nonneg
                  (mul_nonneg (div_nonneg hd (by norm_num)) (by norm_num))

theorem etaValue_nonneg (vl el : PyLoc) : 0 ≤ etaValue vl el :=
  calculate_eta_fst_nonneg [] vl el

theorem fmtEtaPos_eq {e : ℝ} (he : 0 ≤ e) :
    fmtEtaPos e = if e = 0 then EtaStr.na else EtaStr.mins e := by
  unfold fmtEtaPos
  rcases eq_or_lt_of_le he with heq | hlt
  · rw [← heq]
    norm_num
  · rw [if_pos hlt, if_neg (by linarith)]

/-- Reduction of a dispatch request that passes every guard: the phone has
a live location, the vehicle id exists at index `j`. -/
theorem dispatch_vehicle_success_eq (s : St) (vid phone : Option String)
    (hv : truthyStr vid = true) (hp : truthyStr phone = true)
    {el : PyLoc} (hel : s.phone_to_location (phone.getD "") = some el)
    (hne : el.isEmpty = false)
    {j : ℕ} (hj : s.vehicles.findIdx? (fun v => v.id == vid.getD "") = some j)
    {r : ℝ × List Vehicle}
    (hr : r = calculate_eta s.vehicles
      (vehiclePyLoc (s.vehicles.getD j defVehicle)) el)
    {w : Vehicle}
    (hw : w = { r.2.getD j defVehicle with
      available := false, status := "EN_ROUTE", eta := EtaStr.mins r.1 }) :
    dispatch_vehicle s vid phone =
      (DispatchResult.success r.1 w, { s with vehicles := r.2.set j w }) := by
  subst hw
  subst hr
  unfold dispatch_vehicle get_phone_location
  rw [hv, hp]
  simp only [Bool.not_true, Bool.or_self, Bool.false_eq_true, if_false,
    hel, hne, hj]

/-- Any successful dispatch returns a vehicle whose eta string is
`"<eta> mins"` — even when the computed eta is 0 — with
`available = false`, `status = 'EN_ROUTE'`, stored in the final registry. -/
theorem dispatch_success_shape {s : St} {vid phone : Option String}
    {e : ℝ} {v : Vehicle} {s' : St}
    (h : dispatch_vehicle s vid phone = (.success e v, s')) :
    v.eta = EtaStr.mins e ∧ v.available = false ∧ v.status = "EN_ROUTE" ∧
    ∃ j, j < s'.vehicles.length ∧ s'.vehicles.getD j defVehicle = v := by
  unfold dispatch_vehicle at h
  split at h
  · simp at h
  · split at h
    · simp at h
    · rename_i el hel
      split at h
      · simp at h
      · split at h
        · simp at h
        · rename_i j hj
          rw [Prod.mk.injEq] at h
          obtain ⟨h1, h2⟩ := h
          rw [DispatchResult.success.injEq] at h1
          obtain ⟨he, hw⟩ := h1
          have hjlt : j < s.vehicles.length := by
            obtain ⟨hlt, -⟩ := List.findIdx?_eq_some_iff_getElem.1 hj
            exact hlt
          have hlen : (calculate_eta s.vehicles
              (vehiclePyLoc (s.vehicles.getD j defVehicle)) el).2.length =
                s.vehicles.length := calculate_eta_snd_length _ _ _
          refine ⟨?_, ?_, ?_, j, ?_, ?_⟩
          · rw [← hw, ← he]
          · rw [← hw]
          · rw [← hw]
          · rw [← h2]
            simp only [List.length_set]
            omega
          · rw [← h2, ← hw]
            exact getD_set_self _ _ _ (by omega)

/-- C2 (amended): the location-resolution refresh and the batch ETA
computation store `"N/A"` exactly when the computed etaMinutes is 0 and
`"<etaMinutes> mins"` otherwise; the dispatch operation, by contrast,
always stores `"<etaMinutes> mins"`, storing `"0 mins"` (never `"N/A"`)
when the computed ETA is 0. -/
theorem C2_eta_string_rendering (s : St) (target : PyLoc)
    (ids : List String) (vid phone : Option String) (e : ℝ) (v : Vehicle)
    (s' : St) :
    (∀ i < s.vehicles.length,
      ((refreshEtas target s.vehicles).getD i defVehicle).eta =
        (if etaValue (vehiclePyLoc (s.vehicles.getD i defVehicle)) target = 0
         then EtaStr.na
         else EtaStr.mins
           (etaValue (vehiclePyLoc (s.vehicles.getD i defVehicle)) target))) ∧
    (∀ i < s.vehicles.length,
      ids.contains (s.vehicles.getD i defVehicle).id = true →
      ((((List.range s.vehicles.length).foldl (calcEtasStep target ids)
          (s.vehicles, [])).1).getD i defVehicle).eta =
        (if etaValue (vehiclePyLoc (s.vehicles.getD i defVehicle)) target = 0
         then EtaStr.na
         else EtaStr.mins
           (etaValue (vehiclePyLoc (s.vehicles.getD i defVehicle)) target))) ∧
    (dispatch_vehicle s vid phone = (.success e v, s') →
      v.eta = EtaStr.mins e) := by
  refine ⟨?_, ?_, ?_⟩
  · intro i hi
    rw [((refreshEtas_inv target s.vehicles).2 i).2.1 hi hi]
    exact fmtEtaPos_eq (etaValue_nonneg _ _)
  · intro i hi hc
    rw [((calcEtas_fold_inv target ids s.vehicles).2.1 i).2.1 hi hi,
      if_pos hc]
    exact fmtEtaPos_eq (etaValue_nonneg _ _)
  · intro h
    exact (dispatch_success_shape h).1

/-- C2 witness: the refresh rule instantiated on a one-ambulance registry
and the Tumkur Bus Stand location. -/
theorem C2_eta_string_rendering_witness :
    ((refreshEtas { lat := some 13.3415, lng := some 77.1030 }
        (initState [rawAmbulance]).vehicles).getD 0 defVehicle).eta =
      (if etaValue (vehiclePyLoc
            ((initState [rawAmbulance]).vehicles.getD 0 defVehicle))
            { lat := some 13.3415, lng := some 77.1030 } = 0
       then EtaStr.na
       else EtaStr.mins (etaValue (vehiclePyLoc
         ((initState [rawAmbulance]).vehicles.getD 0 defVehicle))
         { lat := some 13.3415, lng := some 77.1030 })) :=
  (C2_eta_string_rendering (initState [rawAmbulance])
      { lat := some 13.3415, lng := some 77.1030 } [] none none 0
      defVehicle (initState [rawAmbulance])).1 0
    (by simp [initState, load_vehicles])

/-- Raw catalog record of a vehicle parked exactly on the equator, whose
ETA therefore always computes to 0. -/
def rawZero : RawVehicle :=
  { id := "Z1", name := "Zero Responder", type := "FIRE",
    location := ⟨0, 77⟩, services := [] }

/-- The posted live location used in the dispatch scenarios: the Tumkur
Bus Stand coordinates. -/
def locTarget : PyLoc := { lat := some 13.3415, lng := some 77.1030 }

/-- The state after recording a live location for phone `"9876543211"` on
a registry holding only the equator vehicle. -/
def sZero : St :=
  update_phone_location (initState [rawZero]) "9876543211" locTarget

/-- The equator vehicle after its dispatch: eta string `"0 mins"`. -/
def wZero : Vehicle :=
  { id := "Z1", name := "Zero Responder", type := "FIRE",
    location := ⟨0, 77⟩, services := [], eta := .mins 0,
    available := false, status := "EN_ROUTE", distance := none }

/-- C2 counterexample: dispatching the equator vehicle computes eta 0 and
stores the eta string `"0 mins"` (`mins 0`), not `"N/A"` — refuting the
claim that every eta-writing operation stores `"N/A"` when the computed
etaMinutes is 0. -/
theorem C2_dispatch_stores_zero_mins :
    dispatch_vehicle sZero (some "Z1") (some "9876543211") =
      (.success 0 wZero, { sZero with vehicles := [wZero] }) ∧
    wZero.eta = EtaStr.mins 0 ∧ wZero.eta ≠ EtaStr.na := by
  have hcalc : calculate_eta sZero.vehicles
      (vehiclePyLoc (sZero.vehicles.getD 0 defVehicle)) locTarget =
        (0, sZero.vehicles) :=
    calculate_eta_zero_component _ _ _ (Or.inl rfl)
  refine ⟨?_, rfl, by simp [wZero]⟩
  rw [@dispatch_vehicle_success_eq sZero (some "Z1") (some "9876543211")
    rfl rfl locTarget rfl rfl 0 rfl (0, sZero.vehicles) hcalc.symm wZero rfl]
  rfl

/-- Consistency of the `available` flag with the `status` string. -/
def statusOK (v : Vehicle) : Prop :=
  v.available = true ↔ v.status = "AVAILABLE"

theorem statusOK_of_coreEq {v w : Vehicle} (h : coreEq v w)
    (hw : statusOK w) : statusOK v := by
  unfold statusOK at *
  rw [h.2.2.2.2.2.1, h.2.2.2.2.2.2]
  exact hw

theorem forall_mem_of_getD {P : Vehicle → Prop} {vs : List Vehicle}
    (h : ∀ i < vs.length, P (vs.getD i defVehicle)) : ∀ v ∈ vs, P v := by
  intro v hv
  obtain ⟨i, hi, hgi⟩ := List.mem_iff_getElem.1 hv
  have he : vs.getD i defVehicle = v := by
    rw [List.getD_eq_getElem?_getD, List.getElem?_eq_getElem hi, hgi]
    rfl
  rw [← he]
  exact h i hi

theorem getD_mem {vs : List Vehicle} {i : ℕ} (hi : i < vs.length) :
    vs.getD i defVehicle ∈ vs := by
  rw [List.getD_eq_getElem?_getD, List.getElem?_eq_getElem hi]
  exact List.getElem_mem hi

theorem load_vehicles_statusOK (catalog : List RawVehicle) :
    ∀ v ∈ load_vehicles catalog, statusOK v := by
  intro v hv
  obtain ⟨r, -, hr⟩ := List.mem_map.1 hv
  rw [← hr]
  unfold statusOK
  simp

theorem step_preserves_statusOK {s s' : St} (hstep : Step s s')
    (h : ∀ v ∈ s.vehicles, statusOK v) : ∀ v ∈ s'.vehicles, statusOK v := by
  cases hstep with
  | getLocation phone =>
    cases hg : get_location_from_phone s phone with
    | none =>
      unfold get_location
      simp only [hg]
      exact h
    | some ld =>
      unfold get_location
      simp only [hg]
      refine forall_mem_of_getD ?_
      intro i hilen
      obtain ⟨hlen, hpt⟩ := refreshEtas_inv ld.1 s.vehicles
      rw [hlen] at hilen
      exact statusOK_of_coreEq ((hpt i).1) (h _ (getD_mem hilen))
  | calcEtas loc ids =>
    cases loc with
    | none => exact h
    | some target =>
      rw [calculate_etas_some]
      by_cases hc : (target.isEmpty || ids.isEmpty) = true
      · rw [if_pos hc]
        exact h
      · rw [if_neg hc]
        show ∀ v ∈ ((List.range s.vehicles.length).foldl
          (calcEtasStep target ids) (s.vehicles, [])).1, statusOK v
        refine forall_mem_of_getD ?_
        intro i hilen
        obtain ⟨hlen, hpt, -⟩ := calcEtas_fold_inv target ids s.vehicles
        rw [hlen] at hilen
        exact statusOK_of_coreEq ((hpt i).1) (h _ (getD_mem hilen))
  | dispatch vid phone =>
    unfold dispatch_vehicle
    by_cases h1 : (!truthyStr vid || !truthyStr phone) = true
    · rw [if_pos h1]
      exact h
    · rw [if_neg h1]
      cases h2 : get_phone_location s (phone.getD "") with
      | none => exact h
      | some el =>
        simp only [h2]
        by_cases h3 : el.isEmpty = true
        · rw [if_pos h3]
          exact h
        · rw [if_neg h3]
          cases h4 : s.vehicles.findIdx? (fun v => v.id == vid.getD "") with
          | none =>
            simp only [h4]
            exact h
          | some j =>
            simp only [h4]
            have hrl : (calculate_eta s.vehicles
                (vehiclePyLoc (s.vehicles.getD j defVehicle)) el).2.length =
                  s.vehicles.length := calculate_eta_snd_length _ _ _
            refine forall_mem_of_getD ?_
            intro i hilen
            simp only [List.length_set] at hilen
            by_cases hij : i = j
            · subst hij
              rw [getD_set_self _ _ _ hilen]
              unfold statusOK
              simp
            · rw [getD_set_ne _ _ fun he => hij he.symm]
              exact statusOK_of_coreEq
                (calculate_eta_snd_getD _ _ _ i).1
                (h _ (getD_mem (by omega)))
  | updPhone phone loc => exact h
  | updVehicle vid loc => exact h

theorem reachable_statusOK {s : St} (hs : Reachable s) :
    ∀ v ∈ s.vehicles, statusOK v := by
  induction hs with
  | init catalog => exact load_vehicles_statusOK catalog
  | step hr hstep ih => exact step_preserves_statusOK hstep ih

/-- C4: in every reachable registry state, a vehicle's `available` flag is
true exactly when its `status` is `'AVAILABLE'` — in particular no
reachable state holds a vehicle with `available = true` and
`status = 'EN_ROUTE'`. -/
theorem C4_available_iff_status_invariant {s : St} (hs : Reachable s)
    (v : Vehicle) (hv : v ∈ s.vehicles) :
    (v.available = true ↔ v.status = "AVAILABLE") ∧
    ¬(v.available = true ∧ v.status = "EN_ROUTE") := by
  have hmain : ∀ v ∈ s.vehicles, statusOK v := reachable_statusOK hs
  refine ⟨hmain v hv, ?_⟩
  rintro ⟨ha, hst⟩
  have hco := (hmain v hv).1 ha
  rw [hst] at hco
  exact absurd hco (by simp)

/-- The ambulance record as it sits in the registry right after loading. -/
def ambLoaded : Vehicle :=
  { id := "V1", name := "Ambulance 1", type := "AMBULANCE",
    location := ⟨13.3409, 77.1025⟩, services := ["medical"], eta := .na,
    available := true, status := "AVAILABLE", distance := none }

/-- C4 witness: the invariant instantiated on the freshly loaded
single-ambulance registry. -/
theorem C4_available_iff_status_invariant_witness :
    (ambLoaded.available = true ↔ ambLoaded.status = "AVAILABLE") ∧
    ¬(ambLoaded.available = true ∧ ambLoaded.status = "EN_ROUTE") :=
  C4_available_iff_status_invariant (Reachable.init [rawAmbulance])
    ambLoaded (by simp [initState, load_vehicles, rawAmbulance, ambLoaded])

/-- C9 witness: the batch projection instantiated on the one-ambulance
registry with one matching and one unknown requested id. -/
theorem C9_batch_eta_projection_witness :
    (calculate_etas (initState [rawAmbulance]) (some locTarget)
        ["V1", "V9"]).1 =
      some (((initState [rawAmbulance]).vehicles.filter
        (fun v => ["V1", "V9"].contains v.id)).map (mkSummary locTarget)) ∧
    (((initState [rawAmbulance]).vehicles.filter
        (fun v => ["V1", "V9"].contains v.id)).map
        (mkSummary locTarget)).countP (fun e => e.vehicleId == "V1") =
      (if "V1" ∈ (initState [rawAmbulance]).vehicles.map (fun v => v.id)
       then 1 else 0) := by
  obtain ⟨h1, h2⟩ := C9_batch_eta_projection (initState [rawAmbulance])
    locTarget ["V1", "V9"] rfl (by simp)
  exact ⟨h1, h2 (by simp [initState, load_vehicles, rawAmbulance]) "V1"
    (by simp)⟩

theorem arctan_pos' {t : ℝ} (ht : 0 < t) : 0 < Real.arctan t := by
  have h := Real.arctan_strictMono ht
  rwa [Real.arctan_zero] at h

theorem arctan_lt_self_of_pos {t : ℝ} (ht : 0 < t) : Real.arctan t < t := by
  have h1 : 0 < Real.arctan t := arctan_pos' ht
  have h2 := Real.lt_tan h1 (Real.arctan_lt_pi_div_two t)
  rwa [Real.tan_arctan] at h2

theorem arctan_gt_sub {t : ℝ} (ht : 0 < t) (ht1 : t ≤ 1) :
    t * (1 - t ^ 2 / 2) < Real.arctan t := by
  have hpos : 0 < Real.arctan t := arctan_pos' ht
  have hlt := Real.sin_lt hpos
  rw [Real.sin_arctan] at hlt
  have hs2 : Real.sqrt (1 + t ^ 2) ^ 2 = 1 + t ^ 2 :=
    Real.sq_sqrt (by positivity)
  have hs0 : 0 < Real.sqrt (1 + t ^ 2) := Real.sqrt_pos.2 (by positivity)
  have h12 : (0 : ℝ) < 1 - t ^ 2 / 2 := by nlinarith
  have hX : 0 < (1 - t ^ 2 / 2) * Real.sqrt (1 + t ^ 2) := mul_pos h12 hs0
  have hsq : ((1 - t ^ 2 / 2) * Real.sqrt (1 + t ^ 2)) ^ 2 ≤ 1 := by
    have hexp : ((1 - t ^ 2 / 2) * Real.sqrt (1 + t ^ 2)) ^ 2 =
        (1 - t ^ 2 / 2) ^ 2 * (1 + t ^ 2) := by
      rw [mul_pow, hs2]
    rw [hexp]
    nlinarith [sq_nonneg t, sq_nonneg (t ^ 2), sq_nonneg (t ^ 3)]
  have hkey : (1 - t ^ 2 / 2) * Real.sqrt (1 + t ^ 2) ≤ 1 := by
    nlinarith [hX, hsq, sq_nonneg ((1 - t ^ 2 / 2) * Real.sqrt (1 + t ^ 2) - 1)]
  have hstep : t * (1 - t ^ 2 / 2) ≤ t / Real.sqrt (1 + t ^ 2) := by
    rw [le_div_iff₀ hs0]
    calc t * (1 - t ^ 2 / 2) * Real.sqrt (1 + t ^ 2)
        = t * ((1 - t ^ 2 / 2) * Real.sqrt (1 + t ^ 2)) := by ring
      _ ≤ t * 1 := mul_le_mul_of_nonneg_left hkey (le_of_lt ht)
      _ = t := mul_one t
  linarith

theorem sin_x1_bounds :
    5.235984e-6 < Real.sin (π / 600000) ∧
    Real.sin (π / 600000) < 5.235989e-6 := by
  have hp1 : (3.141592 : ℝ) < π := Real.pi_gt_d6
  have hp2 : π < 3.141593 := Real.pi_lt_d6
  have hx1 : (5.235986e-6 : ℝ) < π / 600000 := by linarith
  have hx2 : π / 600000 < 5.2359884e-6 := by linarith
  have hxpos : (0 : ℝ) < π / 600000 := by linarith
  constructor
  · have h := Real.sin_gt_sub_cube hxpos (by linarith)
    have hsq : (π / 600000) ^ 2 < 2.8e-11 := by nlinarith
    have hcube : (π / 600000) ^ 3 < 1.5e-16 := by nlinarith
    linarith
  · calc Real.sin (π / 600000) < π / 600000 := Real.sin_lt hxpos
      _ < 5.235989e-6 := by linarith

theorem sin_x2_bounds :
    4.363320e-6 < Real.sin (π / 720000) ∧
    Real.sin (π / 720000) < 4.363324e-6 := by
  have hp1 : (3.141592 : ℝ) < π := Real.pi_gt_d6
  have hp2 : π < 3.141593 := Real.pi_lt_d6
  have hx1 : (4.3633222e-6 : ℝ) < π / 720000 := by linarith
  have hx2 : π / 720000 < 4.3633237e-6 := by linarith
  have hxpos : (0 : ℝ) < π / 720000 := by linarith
  constructor
  · have h := Real.sin_gt_sub_cube hxpos (by linarith)
    have hsq : (π / 720000) ^ 2 < 2e-11 := by nlinarith
    have hcube : (π / 720000) ^ 3 < 1e-16 := by nlinarith
    linarith
  · calc Real.sin (π / 720000) < π / 720000 := Real.sin_lt hxpos
      _ < 4.363324e-6 := by linarith

theorem cos_L1_bounds :
    0.972739 < Real.cos (13.3409 * π / 180) ∧
    Real.cos (13.3409 * π / 180) < 0.9730453 := by
  have hp1 : (3.141592 : ℝ) < π := Real.pi_gt_d6
  have hp2 : π < 3.141593 := Real.pi_lt_d6
  have hL1 : (0.2328425 : ℝ) < 13.3409 * π / 180 := by linarith
  have hL2 : 13.3409 * π / 180 < 0.2328427 := by linarith
  have hLpos : (0 : ℝ) < 13.3409 * π / 180 := by linarith
  have habs : |13.3409 * π / 180| ≤ 1 := by
    rw [abs_of_pos hLpos]
    linarith
  have hb := Real.cos_bound habs
  rw [abs_of_pos hLpos] at hb
  obtain ⟨hlo, hhi⟩ := abs_le.1 hb
  have hsqlo : (0.0542156 : ℝ) < (13.3409 * π / 180) ^ 2 := by nlinarith
  have hsqhi : (13.3409 * π / 180) ^ 2 < 0.0542158 := by nlinarith
  have h4 : (13.3409 * π / 180) ^ 4 < 0.0029394 := by nlinarith
  constructor
  · nlinarith
  · nlinarith

theorem cos_L2_bounds :
    0.9727365 < Real.cos (13.3415 * π / 180) ∧
    Real.cos (13.3415 * π / 180) < 0.9730429 := by
  have hp1 : (3.141592 : ℝ) < π := Real.pi_gt_d6
  have hp2 : π < 3.141593 := Real.pi_lt_d6
  have hL1 : (0.2328530 : ℝ) < 13.3415 * π / 180 := by linarith
  have hL2 : 13.3415 * π / 180 < 0.2328532 := by linarith
  have hLpos : (0 : ℝ) < 13.3415 * π / 180 := by linarith
  have habs : |13.3415 * π / 180| ≤ 1 := by
    rw [abs_of_pos hLpos]
    linarith
  have hb := Real.cos_bound habs
  rw [abs_of_pos hLpos] at hb
  obtain ⟨hlo, hhi⟩ := abs_le.1 hb
  have hsqlo : (0.0542205 : ℝ) < (13.3415 * π / 180) ^ 2 := by nlinarith
  have hsqhi : (13.3415 * π / 180) ^ 2 < 0.0542207 := by nlinarith
  have h4 : (13.3415 * π / 180) ^ 4 < 0.0029399 := by nlinarith
  constructor
  · nlinarith
  · nlinarith

theorem A_bounds :
    4.543e-11 < Real.sin (π / 600000) ^ 2 +
      Real.cos (13.3409 * π / 180) * Real.cos (13.3415 * π / 180) *
        Real.sin (π / 720000) ^ 2 ∧
    Real.sin (π / 600000) ^ 2 +
      Real.cos (13.3409 * π / 180) * Real.cos (13.3415 * π / 180) *
        Real.sin (π / 720000) ^ 2 < 4.5442e-11 := by
  obtain ⟨hs1l, hs1u⟩ := sin_x1_bounds
  obtain ⟨hs2l, hs2u⟩ := sin_x2_bounds
  obtain ⟨hc1l, hc1u⟩ := cos_L1_bounds
  obtain ⟨hc2l, hc2u⟩ := cos_L2_bounds
  have hs1sq_l : (2.741552e-11 : ℝ) < Real.sin (π / 600000) ^ 2 := by
    nlinarith
  have hs1sq_u : Real.sin (π / 600000) ^ 2 < 2.741559e-11 := by nlinarith
  have hs2sq_l : (1.903856e-11 : ℝ) < Real.sin (π / 720000) ^ 2 := by
    nlinarith
  have hs2sq_u : Real.sin (π / 720000) ^ 2 < 1.903860e-11 := by nlinarith
  have hcc_l : (0.946218 : ℝ) <
      Real.cos (13.3409 * π / 180) * Real.cos (13.3415 * π / 180) := by
    nlinarith
  have hcc_u : Real.cos (13.3409 * π / 180) * Real.cos (13.3415 * π / 180) <
      0.946815 := by nlinarith
  have ht2_l : (1.801462e-11 : ℝ) <
      Real.cos (13.3409 * π / 180) * Real.cos (13.3415 * π / 180) *
        Real.sin (π / 720000) ^ 2 := by nlinarith
  have ht2_u : Real.cos (13.3409 * π / 180) * Real.cos (13.3415 * π / 180) *
      Real.sin (π / 720000) ^ 2 < 1.802604e-11 := by nlinarith
  constructor
  · linarith
  · linarith

theorem arc_assembly {A : ℝ} (h1 : 4.543e-11 < A) (h2 : A < 4.5442e-11) :
    0.0858 < 6371 * (2 * Real.arctan (Real.sqrt A / Real.sqrt (1 - A))) ∧
    6371 * (2 * Real.arctan (Real.sqrt A / Real.sqrt (1 - A))) < 0.0859 := by
  have hA0 : 0 < A := by linarith
  have hsA_l : (6.74e-6 : ℝ) < Real.sqrt A :=
    (Real.lt_sqrt (by norm_num)).2 (by nlinarith)
  have hsA_u : Real.sqrt A < 6.7411e-6 :=
    (Real.sqrt_lt' (by norm_num)).2 (by nlinarith)
  have h1A_l : (0.999999 : ℝ) < Real.sqrt (1 - A) := by
    have hle : (1 - A) ≤ Real.sqrt (1 - A) := by
      have hmono : Real.sqrt ((1 - A) ^ 2) ≤ Real.sqrt (1 - A) :=
        Real.sqrt_le_sqrt (by nlinarith)
      rwa [Real.sqrt_sq (by linarith)] at hmono
    linarith
  have h1A_u : Real.sqrt (1 - A) ≤ 1 := Real.sqrt_le_one.2 (by linarith)
  have h1A_0 : (0 : ℝ) < Real.sqrt (1 - A) := by linarith
  have hT_l : (6.74e-6 : ℝ) < Real.sqrt A / Real.sqrt (1 - A) := by
    rw [lt_div_iff₀ h1A_0]
    nlinarith
  have hT_u : Real.sqrt A / Real.sqrt (1 - A) < 6.74111e-6 := by
    rw [div_lt_iff₀ h1A_0]
    nlinarith
  have hT_0 : (0 : ℝ) < Real.sqrt A / Real.sqrt (1 - A) := by linarith
  have harc_u := arctan_lt_self_of_pos hT_0
  have harc_l := arctan_gt_sub hT_0 (by linarith)
  have hT2 : (Real.sqrt A / Real.sqrt (1 - A)) ^ 2 < 4.6e-11 := by nlinarith
  have hT3 : (Real.sqrt A / Real.sqrt (1 - A)) ^ 3 < 3.1e-16 := by nlinarith
  constructor
  · nlinarith [harc_l, hT_l, hT3]
  · nlinarith [harc_u, hT_u]

theorem hav_C1_bounds :
    0.0858 < haversineDistance 13.3409 77.1025 13.3415 77.1030 ∧
    haversineDistance 13.3409 77.1025 13.3415 77.1030 < 0.0859 := by
  have harg1 : (13.3415 * π / 180 - 13.3409 * π / 180) / 2 = π / 600000 := by
    ring
  have harg2 : (77.1030 * π / 180 - 77.1025 * π / 180) / 2 = π / 720000 := by
    ring
  obtain ⟨hAl, hAu⟩ := A_bounds
  have hpos : (0 : ℝ) < Real.sqrt (1 - (Real.sin (π / 600000) ^ 2 +
      Real.cos (13.3409 * π / 180) * Real.cos (13.3415 * π / 180) *
        Real.sin (π / 720000) ^ 2)) :=
    Real.sqrt_pos.2 (by linarith)
  have hd : haversineDistance 13.3409 77.1025 13.3415 77.1030 =
      6371 * (2 * Real.arctan (Real.sqrt (Real.sin (π / 600000) ^ 2 +
        Real.cos (13.3409 * π / 180) * Real.cos (13.3415 * π / 180) *
          Real.sin (π / 720000) ^ 2) /
        Real.sqrt (1 - (Real.sin (π / 600000) ^ 2 +
          Real.cos (13.3409 * π / 180) * Real.cos (13.3415 * π / 180) *
            Real.sin (π / 720000) ^ 2)))) := by
    simp only [haversineDistance]
    rw [harg1, harg2]
    unfold atan2
    rw [if_pos hpos]
  rw [hd]
  exact arc_assembly hAl hAu

theorem etaValue_C1 : etaValue (vehiclePyLoc ambLoaded) locTarget = 1 := by
  obtain ⟨hdl, hdu⟩ := hav_C1_bounds
  have hmain := calculate_eta_main [] (vehiclePyLoc ambLoaded) locTarget
    (show (vehiclePyLoc ambLoaded).getLat = some 13.3409 from rfl)
    (show (vehiclePyLoc ambLoaded).getLng = some 77.1025 from rfl)
    (show locTarget.getLat = some 13.3415 from rfl)
    (show locTarget.getLng = some 77.1030 from rfl)
    (by norm_num) (by norm_num) (by norm_num) (by norm_num)
  have hDD : haversineDistance 13.3409 77.1025 13.3415 77.1030 / 60 * 60 =
      haversineDistance 13.3409 77.1025 13.3415 77.1030 := by ring
  have hr1 : round1 (haversineDistance 13.3409 77.1025 13.3415 77.1030 /
      60 * 60) = 1 / 10 := by
    rw [hDD]
    unfold round1
    rw [rnd_eq_one (by linarith) (by linarith)]
    norm_num
  unfold etaValue
  rw [hmain]
  show (if round1 (haversineDistance 13.3409 77.1025 13.3415 77.1030 /
      60 * 60) < 1 ∧ 0 < haversineDistance 13.3409 77.1025 13.3415 77.1030
    then (1 : ℝ)
    else round1 (haversineDistance 13.3409 77.1025 13.3415 77.1030 /
      60 * 60)) = 1
  rw [if_pos ⟨by rw [hr1]; norm_num, by linarith⟩]

/-- The state after recording a live location for phone `"9876543210"` at
the Tumkur Bus Stand coordinates, on the one-ambulance registry. -/
def sC1 : St :=
  update_phone_location (initState [rawAmbulance]) "9876543210" locTarget

/-- The ambulance after its dispatch to the Bus Stand location: en route,
unavailable, eta string `"1 mins"`, attached rounded distance 0.1 km. -/
def wC1 : Vehicle :=
  { id := "V1", name := "Ambulance 1", type := "AMBULANCE",
    location := ⟨13.3409, 77.1025⟩, services := ["medical"],
    eta := .mins 1, available := false, status := "EN_ROUTE",
    distance := some 0.1 }

theorem calculate_eta_C1 :
    calculate_eta sC1.vehicles
      (vehiclePyLoc (sC1.vehicles.getD 0 defVehicle)) locTarget =
      (1, [{ ambLoaded with distance := some 0.1 }]) := by
  obtain ⟨hdl, hdu⟩ := hav_C1_bounds
  have hr1 : round1 (haversineDistance 13.3409 77.1025 13.3415 77.1030) =
      0.1 := by
    unfold round1
    rw [rnd_eq_one (by linarith) (by linarith)]
    norm_num
  have hmain := calculate_eta_main [ambLoaded] (vehiclePyLoc ambLoaded)
    locTarget
    (show (vehiclePyLoc ambLoaded).getLat = some 13.3409 from rfl)
    (show (vehiclePyLoc ambLoaded).getLng = some 77.1025 from rfl)
    (show locTarget.getLat = some 13.3415 from rfl)
    (show locTarget.getLng = some 77.1030 from rfl)
    (by norm_num) (by norm_num) (by norm_num) (by norm_num)
  show calculate_eta [ambLoaded] (vehiclePyLoc ambLoaded) locTarget = _
  rw [hmain]
  rw [Prod.mk.injEq]
  constructor
  · have heta : etaValue (vehiclePyLoc ambLoaded) locTarget = 1 :=
      etaValue_C1
    unfold etaValue at heta
    rw [calculate_eta_main [] (vehiclePyLoc ambLoaded) locTarget
      (show (vehiclePyLoc ambLoaded).getLat = some 13.3409 from rfl)
      (show (vehiclePyLoc ambLoaded).getLng = some 77.1025 from rfl)
      (show locTarget.getLat = some 13.3415 from rfl)
      (show locTarget.getLng = some 77.1030 from rfl)
      (by norm_num) (by norm_num) (by norm_num) (by norm_num)] at heta
    exact heta
  · rw [show attachDistance 13.3409 77.1025
        (haversineDistance 13.3409 77.1025 13.3415 77.1030) [ambLoaded] =
        [{ ambLoaded with distance := some (round1
          (haversineDistance 13.3409 77.1025 13.3415 77.1030)) }] from
      attachDistance_first_match _ _ _ [] ambLoaded []
        (by intro u hu; cases hu) ⟨rfl, rfl⟩]
    rw [hr1]

/-- C1 counterexample: on a freshly started system the dispatch of V to
phone `"9876543210"` does not succeed — it fails with the 404
`Emergency location not found` — although that phone is present in the
seeded reference map: `dispatch_vehicle` resolves the phone via the live
`phone_to_location` map, which is empty at startup. -/
theorem C1_fresh_dispatch_location_not_found :
    dispatch_vehicle (initState [rawAmbulance]) (some "V1")
      (some "9876543210") =
      (.locationNotFound, initState [rawAmbulance]) ∧
    phoneLocationsInit "9876543210" =
      some ⟨13.3409, 77.1025, "Tumkur City Center"⟩ :=
  ⟨rfl, rfl⟩

/-- C1 (amended): the ETA computation from V at (13.3409, 77.1025) to the
target (13.3415, 77.1030) yields a distance of ≈ 0.09 km and a clamped
etaMinutes of 1; a dispatch of V to phone `"9876543210"` on the freshly
started system fails with location-not-found because dispatch consults
only the live phone-location map, which is empty at startup; once a live
location for that phone is recorded at the target coordinates the same
dispatch succeeds and leaves V with status `'EN_ROUTE'`,
`available = false` and eta `"1 mins"`. -/
theorem C1_end_to_end_amended :
    |haversineDistance 13.3409 77.1025 13.3415 77.1030 - 0.09| < 0.005 ∧
    etaValue (vehiclePyLoc ambLoaded) locTarget = 1 ∧
    dispatch_vehicle (initState [rawAmbulance]) (some "V1")
      (some "9876543210") =
      (.locationNotFound, initState [rawAmbulance]) ∧
    (dispatch_vehicle sC1 (some "V1") (some "9876543210") =
       (.success 1 wC1, { sC1 with vehicles := [wC1] }) ∧
     wC1.status = "EN_ROUTE" ∧ wC1.available = false ∧
     wC1.eta = EtaStr.mins 1) := by
  obtain ⟨hdl, hdu⟩ := hav_C1_bounds
  refine ⟨?_, etaValue_C1, rfl, ?_, rfl, rfl, rfl⟩
  · rw [abs_lt]
    constructor <;> linarith
  · rw [@dispatch_vehicle_success_eq sC1 (some "V1") (some "9876543210")
      rfl rfl locTarget rfl rfl 0 rfl
      (1, [{ ambLoaded with distance := some 0.1 }])
      calculate_eta_C1.symm wC1 rfl]
    rfl

end ERS
